import Mathlib

/-!
Verification development for the SRS construction subsystem of
`sql/gis/srs/srs.cc`: WKT parse trees are turned into strongly typed
spatial reference system objects.

Modelling conventions:
* C++ `double` values that can carry the NaN sentinel are modelled as
  `Option ℚ`, with `none` playing the role of NaN.  The source only ever
  assigns, copies and `std::isnan`-tests these doubles, so this is faithful.
* `my_strcasecmp(&my_charset_latin1, a, b) == 0` is modelled as equality of
  the ASCII-lowercased strings (`eq_ic`); all strings compared in the source
  are ASCII names, digit strings, or empty.
* `DBUG_ASSERT` conditions are accumulated into a Boolean `asserts` field of
  each builder's result (they are no-ops in release builds; here we record
  whether every asserted condition held).
* Error reporting through `my_error` is modelled by an explicit error list
  in each result.
-/

namespace Srs

/-- A C++ `double` in the places where NaN is used as a sentinel:
`none` models NaN, `some q` models an ordinary (finite) value. -/
abbrev RVal := Option ℚ

/-- `std::isnan` on the modelled doubles. -/
def isnan (r : RVal) : Bool := r.isNone

/-- Case-insensitive string equality: the model of
`my_strcasecmp(&my_charset_latin1, a, b) == 0`.  Comparison is on the
character lists with ASCII case folded (all strings the source compares
are ASCII names, digit strings, or empty). -/
def eq_ic (a b : String) : Bool :=
  decide (a.data.map Char.toLower = b.data.map Char.toLower)

/-- The `param_names` table built at the top of `set_parameters`:
canonical EPSG parameter names.  `std::map::operator[]` yields the empty
string for any key not in the table. -/
def param_names (code : ℤ) : String :=
  if code = 1026 then "c1"
  else if code = 1027 then "c2"
  else if code = 1028 then "c3"
  else if code = 1029 then "c4"
  else if code = 1030 then "c5"
  else if code = 1031 then "c6"
  else if code = 1032 then "c7"
  else if code = 1033 then "c8"
  else if code = 1034 then "c9"
  else if code = 1035 then "c10"
  else if code = 1036 then "azimuth"
  else if code = 1038 then "ellipsoid_scale_factor"
  else if code = 1039 then "projection_plane_height_at_origin"
  else if code = 8617 then "evaluation_point_ordinate_1"
  else if code = 8618 then "evaluation_point_ordinate_2"
  else if code = 8801 then "latitude_of_origin"
  else if code = 8802 then "central_meridian"
  else if code = 8805 then "scale_factor"
  else if code = 8806 then "false_easting"
  else if code = 8807 then "false_northing"
  else if code = 8811 then "latitude_of_center"
  else if code = 8812 then "longitude_of_center"
  else if code = 8813 then "azimuth"
  else if code = 8814 then "rectified_grid_angle"
  else if code = 8815 then "scale_factor"
  else if code = 8816 then "false_easting"
  else if code = 8817 then "false_northing"
  else if code = 8818 then "pseudo_standard_parallel_1"
  else if code = 8819 then "scale_factor"
  else if code = 8821 then "latitude_of_origin"
  else if code = 8822 then "central_meridian"
  else if code = 8823 then "standard_parallel_1"
  else if code = 8824 then "standard_parallel_2"
  else if code = 8826 then "false_easting"
  else if code = 8827 then "false_northing"
  else if code = 8830 then "initial_longitude"
  else if code = 8831 then "zone_width"
  else if code = 8832 then "standard_parallel"
  else if code = 8833 then "longitude_of_center"
  else ""

/-- The `param_aliases` table of `set_parameters`: only codes 8823 and 8824
have an alias; `std::map::operator[]` yields the empty string otherwise. -/
def param_aliases (code : ℤ) : String :=
  if code = 8823 then "standard_parallel1"
  else if code = 8824 then "standard_parallel2"
  else ""

/-- An `authority` clause of the WKT parse tree: registry name and code. -/
structure Authority where
  name : String
  code : String
deriving DecidableEq

/-- A parsed `PARAMETER` element: name, optional authority, numeric value. -/
structure Parameter where
  name : String
  authority : Authority
  value : ℚ
deriving DecidableEq

/-- Which branch of the matching chain in `set_parameters` fired. -/
inductive Branch where
  | byCode
  | byName
  | byAlias
deriving DecidableEq

/-- The matching chain of `set_parameters` for one (parameter, descriptor)
pair, mirroring the `if`/`else if` structure of the inner loop body:
if the authority name is "EPSG", only the authority-code test is made;
otherwise the parameter name is tested against the canonical name and
then against the alias.  Returns which branch matched, if any. -/
def param_match (p : Parameter) (code : ℤ) : Option Branch :=
  if eq_ic "EPSG" p.authority.name then
    if eq_ic (toString code) p.authority.code then some Branch.byCode
    else none
  else if eq_ic (param_names code) p.name then some Branch.byName
  else if eq_ic (param_aliases code) p.name then some Branch.byAlias
  else none

/-- One iteration of the outer loop of `set_parameters`: parameter `p` is
tested against every descriptor, and every descriptor it matches has its
slot overwritten with `p`'s value. -/
def apply_param (p : Parameter) (ds : List (ℤ × RVal)) : List (ℤ × RVal) :=
  ds.map fun d => if (param_match p d.1).isSome then (d.1, some p.value) else d

/-- The full nested matching scan of `set_parameters`: parameters are
processed in list order, each one scanning the whole descriptor list. -/
def scan_params (ps : List Parameter) (ds : List (ℤ × RVal)) : List (ℤ × RVal) :=
  ps.foldl (fun acc p => apply_param p acc) ds

/-- Diagnostics reported through `my_error`. -/
inductive SrsError where
  | proj_parameter_missing (srid : ℤ) (name : String) (code : ℤ)
  | parse_error (srid : ℤ)
deriving DecidableEq

/-- Result of `set_parameters`: the boolean failure flag, the diagnostics
reported, and the final state of the descriptor slots. -/
structure SPResult where
  fail : Bool
  errors : List SrsError
  slots : List (ℤ × RVal)
deriving DecidableEq

/-- `set_parameters`: run the matching scan, then the post-pass that
reports the first descriptor whose slot is still the NaN sentinel and
returns `true`; returns `false` when every slot is set. -/
def set_parameters (srid : ℤ) (tree_params : List Parameter)
    (params : List (ℤ × RVal)) : SPResult :=
  let ds := scan_params tree_params params
  match ds.find? (fun d => d.2.isNone) with
  | some d =>
      ⟨true, [SrsError.proj_parameter_missing srid (param_names d.1) d.1], ds⟩
  | none => ⟨false, [], ds⟩

/-- Axis directions as used by the source: only the comparison against
`UNSPECIFIED` matters to `srs.cc`. -/
inductive Axis_direction where
  | UNSPECIFIED
  | NORTH
  | SOUTH
  | EAST
  | WEST
deriving DecidableEq

/-- `wkt_parser::Spheroid`: the mandatory ellipsoid numbers. -/
structure Spheroid where
  semi_major_axis : RVal
  inverse_flattening : RVal
deriving DecidableEq

/-- `wkt_parser::Towgs84`: the optional 7-parameter datum shift clause,
with its validity flag. -/
structure Towgs84_clause where
  valid : Bool
  dx : RVal
  dy : RVal
  dz : RVal
  ex : RVal
  ey : RVal
  ez : RVal
  ppm : RVal
deriving DecidableEq

/-- `wkt_parser::Datum`: spheroid plus datum-shift clause. -/
structure Datum where
  spheroid : Spheroid
  towgs84 : Towgs84_clause
deriving DecidableEq

/-- `wkt_parser::Prime_meridian`. -/
structure Prime_meridian where
  longitude : RVal
deriving DecidableEq

/-- A WKT unit clause: its conversion factor. -/
structure Unit_clause where
  conversion_factor : RVal
deriving DecidableEq

/-- The optional axis pair of a coordinate system, with its validity
flag and the two axis directions. -/
structure Axes_clause where
  valid : Bool
  x_direction : Axis_direction
  y_direction : Axis_direction
deriving DecidableEq

/-- `wkt_parser::Geographic_cs`: the tagged tree for a geographic CS. -/
structure Geographic_cs where
  datum : Datum
  prime_meridian : Prime_meridian
  angular_unit : Unit_clause
  axes : Axes_clause
deriving DecidableEq

/-- The `PROJECTION` clause: its authority tag. -/
structure Projection_clause where
  authority : Authority
deriving DecidableEq

/-- `wkt_parser::Projected_cs`: the tagged tree for a projected CS. -/
structure Projected_cs where
  geographic_cs : Geographic_cs
  projection : Projection_clause
  parameters : List Parameter
  linear_unit : Unit_clause
  axes : Axes_clause
deriving DecidableEq

/-- The parser's tagged output: one of the two coordinate system kinds
(the `boost::variant` of the source). -/
inductive Coordinate_system where
  | Geographic (g : Geographic_cs)
  | Projected (p : Projected_cs)
deriving DecidableEq

/-- The seven datum-shift values held by a geographic SRS object
(`m_towgs84[7]` in the source). -/
structure Towgs84_vals where
  dx : RVal
  dy : RVal
  dz : RVal
  ex : RVal
  ey : RVal
  ez : RVal
  ppm : RVal
deriving DecidableEq

/-- The geographic SRS object.  Default field values model the
constructor's sentinel seeding.
Modelled from the spec: the member initializers live in `srs.h`, which is
not part of the sources here; the spec's pre-seed rule says mandatory
slots start at the not-a-number sentinel and axis directions start
unspecified. -/
structure Geographic_srs where
  m_semi_major_axis : RVal := none
  m_inverse_flattening : RVal := none
  m_towgs84 : Towgs84_vals := ⟨none, none, none, none, none, none, none⟩
  m_prime_meridian : RVal := none
  m_angular_unit : RVal := none
  m_axes : Axis_direction × Axis_direction :=
    (Axis_direction.UNSPECIFIED, Axis_direction.UNSPECIFIED)
deriving DecidableEq

/-- The fields shared by all projected SRS objects (`Projected_srs` base
class): the embedded geographic SRS, the linear unit, the axis pair.
Default values model the constructor's sentinel seeding (see
`Geographic_srs`). -/
structure Projected_base where
  m_geographic_srs : Geographic_srs := {}
  m_linear_unit : RVal := none
  m_axes : Axis_direction × Axis_direction :=
    (Axis_direction.UNSPECIFIED, Axis_direction.UNSPECIFIED)
deriving DecidableEq

/-- Result of `Geographic_srs::init`: failure flag, conjunction of all
`DBUG_ASSERT` conditions encountered, and the object built. -/
structure Geo_init_result where
  fail : Bool
  asserts : Bool
  srs : Geographic_srs
deriving DecidableEq

/-- `Geographic_srs::init`: copy the ellipsoid numbers, the datum shift
when its clause is valid, the prime meridian, the angular unit, and the
axis pair when its clause is valid.  Always returns `false` (success);
the `DBUG_ASSERT`s are recorded in `asserts`. -/
def Geographic_srs.init (_srid : ℤ) (g : Geographic_cs) : Geo_init_result :=
  let s0 : Geographic_srs := {}
  let s1 := { s0 with
    m_semi_major_axis := g.datum.spheroid.semi_major_axis,
    m_inverse_flattening := g.datum.spheroid.inverse_flattening }
  let a1 := !(isnan s1.m_semi_major_axis) && !(isnan s1.m_inverse_flattening)
  let s2 :=
    if g.datum.towgs84.valid then
      { s1 with m_towgs84 :=
        ⟨g.datum.towgs84.dx, g.datum.towgs84.dy, g.datum.towgs84.dz,
         g.datum.towgs84.ex, g.datum.towgs84.ey, g.datum.towgs84.ez,
         g.datum.towgs84.ppm⟩ }
    else s1
  let a2 :=
    if g.datum.towgs84.valid then
      !(isnan s2.m_towgs84.dx) && !(isnan s2.m_towgs84.dy) &&
      !(isnan s2.m_towgs84.dz) && !(isnan s2.m_towgs84.ex) &&
      !(isnan s2.m_towgs84.ey) && !(isnan s2.m_towgs84.ez) &&
      !(isnan s2.m_towgs84.ppm)
    else true
  let s3 := { s2 with
    m_prime_meridian := g.prime_meridian.longitude,
    m_angular_unit := g.angular_unit.conversion_factor }
  let a3 := !(isnan s3.m_prime_meridian) && !(isnan s3.m_angular_unit)
  let s4 :=
    if g.axes.valid then
      { s3 with m_axes := (g.axes.x_direction, g.axes.y_direction) }
    else s3
  let a4 :=
    if g.axes.valid then
      !(s4.m_axes.1 == Axis_direction.UNSPECIFIED) &&
      !(s4.m_axes.2 == Axis_direction.UNSPECIFIED)
    else true
  ⟨false, a1 && a2 && a3 && a4, s4⟩

/-- Result of `Projected_srs::init` (the base-class part). -/
structure Proj_base_init_result where
  fail : Bool
  asserts : Bool
  base : Projected_base
deriving DecidableEq

/-- `Projected_srs::init`: build the nested geographic SRS, copy the
linear unit, copy the axis pair when valid; the failure flag is the
nested builder's. -/
def Projected_srs.init (srid : ℤ) (p : Projected_cs) : Proj_base_init_result :=
  let gr := Geographic_srs.init srid p.geographic_cs
  let b0 : Projected_base := {}
  let b1 := { b0 with
    m_geographic_srs := gr.srs,
    m_linear_unit := p.linear_unit.conversion_factor }
  let a1 := !(isnan b1.m_linear_unit)
  let b2 :=
    if p.axes.valid then
      { b1 with m_axes := (p.axes.x_direction, p.axes.y_direction) }
    else b1
  let a2 :=
    if p.axes.valid then
      !(b2.m_axes.1 == Axis_direction.UNSPECIFIED) &&
      !(b2.m_axes.2 == Axis_direction.UNSPECIFIED)
    else true
  ⟨gr.fail, gr.asserts && a1 && a2, b2⟩

/-- The closed catalogue of projection kinds: one constructor per
`*_srs` leaf class of the source, plus the `Unknown` catch-all. -/
inductive Projection_kind where
  | Unknown_projected
  | Popular_visualisation_pseudo_mercator
  | Lambert_azimuthal_equal_area_spherical
  | Equidistant_cylindrical
  | Equidistant_cylindrical_spherical
  | Krovak_north_orientated
  | Krovak_modified
  | Krovak_modified_north_orientated
  | Lambert_conic_conformal_2sp_michigan
  | Colombia_urban
  | Lambert_conic_conformal_1sp
  | Lambert_conic_conformal_2sp
  | Lambert_conic_conformal_2sp_belgium
  | Mercator_variant_a
  | Mercator_variant_b
  | Cassini_soldner
  | Transverse_mercator
  | Transverse_mercator_south_orientated
  | Oblique_stereographic
  | Polar_stereographic_variant_a
  | New_zealand_map_grid
  | Hotine_oblique_mercator_variant_a
  | Laborde_oblique_mercator
  | Hotine_oblique_mercator_variant_b
  | Tunisia_mining_grid
  | Lambert_conic_near_conformal
  | American_polyconic
  | Krovak
  | Lambert_azimuthal_equal_area
  | Albers_equal_area
  | Transverse_mercator_zoned_grid_system
  | Lambert_conic_conformal_west_orientated
  | Bonne_south_orientated
  | Polar_stereographic_variant_b
  | Polar_stereographic_variant_c
  | Guam_projection
  | Modified_azimuthal_equidistant
  | Hyperbolic_cassini_soldner
  | Lambert_cylindrical_equal_area_spherical
  | Lambert_cylindrical_equal_area
deriving DecidableEq

/-- The EPSG parameter codes each variant's `init` pushes onto its
`params` vector, in push order (one list per `*_srs::init` body). -/
def variant_codes (k : Projection_kind) : List ℤ :=
  match k with
  | .Unknown_projected => []
  | .Popular_visualisation_pseudo_mercator => [8801, 8802, 8806, 8807]
  | .Lambert_azimuthal_equal_area_spherical => [8801, 8802, 8806, 8807]
  | .Equidistant_cylindrical => [8823, 8802, 8806, 8807]
  | .Equidistant_cylindrical_spherical => [8823, 8802, 8806, 8807]
  | .Krovak_north_orientated => [8811, 8833, 1036, 8818, 8819, 8806, 8807]
  | .Krovak_modified =>
      [8811, 8833, 1036, 8818, 8819, 8806, 8807, 8617, 8618,
       1026, 1027, 1028, 1029, 1030, 1031, 1032, 1033, 1034, 1035]
  | .Krovak_modified_north_orientated =>
      [8811, 8833, 1036, 8818, 8819, 8806, 8807, 8617, 8618,
       1026, 1027, 1028, 1029, 1030, 1031, 1032, 1033, 1034, 1035]
  | .Lambert_conic_conformal_2sp_michigan =>
      [8821, 8822, 8823, 8824, 8826, 8827, 1038]
  | .Colombia_urban => [8801, 8802, 8806, 8807, 1039]
  | .Lambert_conic_conformal_1sp => [8801, 8802, 8805, 8806, 8807]
  | .Lambert_conic_conformal_2sp => [8821, 8822, 8823, 8824, 8826, 8827]
  | .Lambert_conic_conformal_2sp_belgium =>
      [8821, 8822, 8823, 8824, 8826, 8827]
  | .Mercator_variant_a => [8801, 8802, 8805, 8806, 8807]
  | .Mercator_variant_b => [8823, 8802, 8806, 8807]
  | .Cassini_soldner => [8801, 8802, 8806, 8807]
  | .Transverse_mercator => [8801, 8802, 8805, 8806, 8807]
  | .Transverse_mercator_south_orientated => [8801, 8802, 8805, 8806, 8807]
  | .Oblique_stereographic => [8801, 8802, 8805, 8806, 8807]
  | .Polar_stereographic_variant_a => [8801, 8802, 8805, 8806, 8807]
  | .New_zealand_map_grid => [8801, 8802, 8806, 8807]
  | .Hotine_oblique_mercator_variant_a =>
      [8811, 8812, 8813, 8814, 8815, 8806, 8807]
  | .Laborde_oblique_mercator => [8811, 8812, 8813, 8815, 8806, 8807]
  | .Hotine_oblique_mercator_variant_b =>
      [8811, 8812, 8813, 8814, 8815, 8816, 8817]
  | .Tunisia_mining_grid => [8821, 8822, 8826, 8827]
  | .Lambert_conic_near_conformal => [8801, 8802, 8805, 8806, 8807]
  | .American_polyconic => [8801, 8802, 8806, 8807]
  | .Krovak => [8811, 8833, 1036, 8818, 8819, 8806, 8807]
  | .Lambert_azimuthal_equal_area => [8801, 8802, 8806, 8807]
  | .Albers_equal_area => [8821, 8822, 8823, 8824, 8826, 8827]
  | .Transverse_mercator_zoned_grid_system =>
      [8801, 8830, 8831, 8805, 8806, 8807]
  | .Lambert_conic_conformal_west_orientated => [8801, 8802, 8805, 8806, 8807]
  | .Bonne_south_orientated => [8801, 8802, 8806, 8807]
  | .Polar_stereographic_variant_b => [8832, 8833, 8806, 8807]
  | .Polar_stereographic_variant_c => [8832, 8833, 8826, 8827]
  | .Guam_projection => [8801, 8802, 8806, 8807]
  | .Modified_azimuthal_equidistant => [8801, 8802, 8806, 8807]
  | .Hyperbolic_cassini_soldner => [8801, 8802, 8806, 8807]
  | .Lambert_cylindrical_equal_area_spherical => [8823, 8802, 8806, 8807]
  | .Lambert_cylindrical_equal_area => [8823, 8802, 8806, 8807]

/-- A variant's descriptor list as handed to `set_parameters`: each code
paired with the initial value of its destination member.
Modelled from the spec: the member initializers live in `srs.h` (not among
the sources); the spec's pre-seed rule seeds mandatory parameter slots
with the not-a-number sentinel, modelled as `none`. -/
def variant_descriptors (k : Projection_kind) : List (ℤ × RVal) :=
  (variant_codes k).map fun c => (c, (none : RVal))

/-- `new_projection`: the EPSG coordinate-operation-method code to
projection kind switch.  Code 0 and every uncatalogued code yield the
unknown projection. -/
def new_projection (epsg_code : ℤ) : Projection_kind :=
  if epsg_code = 0 then .Unknown_projected
  else if epsg_code = 1024 then .Popular_visualisation_pseudo_mercator
  else if epsg_code = 1027 then .Lambert_azimuthal_equal_area_spherical
  else if epsg_code = 1028 then .Equidistant_cylindrical
  else if epsg_code = 1029 then .Equidistant_cylindrical_spherical
  else if epsg_code = 1041 then .Krovak_north_orientated
  else if epsg_code = 1042 then .Krovak_modified
  else if epsg_code = 1043 then .Krovak_modified_north_orientated
  else if epsg_code = 1051 then .Lambert_conic_conformal_2sp_michigan
  else if epsg_code = 1052 then .Colombia_urban
  else if epsg_code = 9801 then .Lambert_conic_conformal_1sp
  else if epsg_code = 9802 then .Lambert_conic_conformal_2sp
  else if epsg_code = 9803 then .Lambert_conic_conformal_2sp_belgium
  else if epsg_code = 9804 then .Mercator_variant_a
  else if epsg_code = 9805 then .Mercator_variant_b
  else if epsg_code = 9806 then .Cassini_soldner
  else if epsg_code = 9807 then .Transverse_mercator
  else if epsg_code = 9808 then .Transverse_mercator_south_orientated
  else if epsg_code = 9809 then .Oblique_stereographic
  else if epsg_code = 9810 then .Polar_stereographic_variant_a
  else if epsg_code = 9811 then .New_zealand_map_grid
  else if epsg_code = 9812 then .Hotine_oblique_mercator_variant_a
  else if epsg_code = 9813 then .Laborde_oblique_mercator
  else if epsg_code = 9815 then .Hotine_oblique_mercator_variant_b
  else if epsg_code = 9816 then .Tunisia_mining_grid
  else if epsg_code = 9817 then .Lambert_conic_near_conformal
  else if epsg_code = 9818 then .American_polyconic
  else if epsg_code = 9819 then .Krovak
  else if epsg_code = 9820 then .Lambert_azimuthal_equal_area
  else if epsg_code = 9822 then .Albers_equal_area
  else if epsg_code = 9824 then .Transverse_mercator_zoned_grid_system
  else if epsg_code = 9826 then .Lambert_conic_conformal_west_orientated
  else if epsg_code = 9828 then .Bonne_south_orientated
  else if epsg_code = 9829 then .Polar_stereographic_variant_b
  else if epsg_code = 9830 then .Polar_stereographic_variant_c
  else if epsg_code = 9831 then .Guam_projection
  else if epsg_code = 9832 then .Modified_azimuthal_equidistant
  else if epsg_code = 9833 then .Hyperbolic_cassini_soldner
  else if epsg_code = 9834 then .Lambert_cylindrical_equal_area_spherical
  else if epsg_code = 9835 then .Lambert_cylindrical_equal_area
  else .Unknown_projected

/-- `std::stoi` as used on an authority code: skip leading whitespace, an
optional sign, then decimal digits.  `none` models a thrown
`invalid_argument` (no digits) or `out_of_range` (outside `int`'s range)
exception; both are caught by `create_projected_srs`. -/
def stoi (s : String) : Option ℤ :=
  let cs := s.data.dropWhile fun c =>
    c == ' ' || c == '\t' || c == '\n' || c == '\x0b' || c == '\x0c' || c == '\r'
  let signed : ℤ × List Char :=
    match cs with
    | '-' :: t => (-1, t)
    | '+' :: t => (1, t)
    | t => (1, t)
  let digits := signed.2.takeWhile Char.isDigit
  if digits.isEmpty then none
  else
    let v : ℤ :=
      signed.1 * ((digits.foldl (fun a c => a * 10 + (c.toNat - '0'.toNat)) 0 : ℕ) : ℤ)
    if v < -(2 ^ 31) || v > 2 ^ 31 - 1 then none else some v

/-- A fully built SRS object as handed back by `parse_wkt`: either a
geographic SRS or a projected SRS of some kind, the latter carrying the
base fields and its kind-specific parameter record (one slot per
descriptor of `variant_codes`, in push order). -/
inductive Spatial_reference_system where
  | Geographic (srs : Geographic_srs)
  | Projected (kind : Projection_kind) (base : Projected_base)
      (parameters : List (ℤ × RVal))
deriving DecidableEq

/-- Result of a projection variant's `init`. -/
structure Variant_init_result where
  fail : Bool
  asserts : Bool
  base : Projected_base
  sp : SPResult
deriving DecidableEq

/-- The shared shape of every `*_srs::init` body: run the base-class
`Projected_srs::init`, then `set_parameters` with the variant's own
descriptor list, and OR the two failure flags.
`Unknown_projected_srs::init` calls only the base class; its empty
descriptor list makes `set_parameters` a no-op (`fail = false`, no
errors, empty slots), so the same shape covers it. -/
def Projected_variant_init (k : Projection_kind) (srid : ℤ)
    (p : Projected_cs) : Variant_init_result :=
  let b := Projected_srs.init srid p
  let sp := set_parameters srid p.parameters (variant_descriptors k)
  ⟨b.fail || sp.fail, b.asserts, b.base, sp⟩

/-- Result of `create_projected_srs`. -/
structure Create_proj_result where
  fail : Bool
  asserts : Bool
  srs : Spatial_reference_system
  errors : List SrsError
deriving DecidableEq

/-- `create_projected_srs`: read the projection authority clause; when the
authority name is "EPSG" (case-insensitively) and the code parses with
`std::stoi`, use that integer, otherwise use 0 (the exception is
swallowed); then build the variant chosen by `new_projection`. -/
def create_projected_srs (srid : ℤ) (proj : Projected_cs) : Create_proj_result :=
  let epsg_code : ℤ :=
    if eq_ic "EPSG" proj.projection.authority.name then
      (stoi proj.projection.authority.code).getD 0
    else 0
  let k := new_projection epsg_code
  let r := Projected_variant_init k srid proj
  ⟨r.fail, r.asserts, Spatial_reference_system.Projected k r.base r.sp.slots,
   r.sp.errors⟩

/-- Result of `create_geographic_srs`. -/
structure Create_geo_result where
  fail : Bool
  asserts : Bool
  srs : Geographic_srs
deriving DecidableEq

/-- `create_geographic_srs`: allocate a geographic SRS and run its
`init`. -/
def create_geographic_srs (srid : ℤ) (geog : Geographic_cs) : Create_geo_result :=
  let r := Geographic_srs.init srid geog
  ⟨r.fail, r.asserts, r.srs⟩

/-- Result of `gis::srs::parse_wkt`: failure flag, the content of the
caller's output slot (initially empty), and the diagnostics reported by
this subsystem. -/
structure Parse_wkt_result where
  fail : Bool
  result : Option Spatial_reference_system
  errors : List SrsError
deriving DecidableEq

/-- `gis::srs::parse_wkt`.  The input span is `none` when `begin` is a
null pointer, `some []` when `begin == end`.  The external WKT grammar is
a collaborator outside this subsystem; its outcome on this span is passed
in as `grammar` (`none` models a parser-reported failure, which carries
its own diagnostic).  On any construction failure the freshly allocated
object is deleted and the output slot stays empty. -/
def parse_wkt (srid : ℤ) (input : Option (List Char))
    (grammar : Option Coordinate_system) : Parse_wkt_result :=
  match input with
  | none => ⟨true, none, [SrsError.parse_error srid]⟩
  | some [] => ⟨true, none, [SrsError.parse_error srid]⟩
  | some (_ :: _) =>
    match grammar with
    | none => ⟨true, none, []⟩
    | some (Coordinate_system.Projected p) =>
        let r := create_projected_srs srid p
        if r.fail then ⟨true, none, r.errors⟩
        else ⟨false, some r.srs, r.errors⟩
    | some (Coordinate_system.Geographic g) =>
        let r := create_geographic_srs srid g
        if r.fail then ⟨true, none, []⟩
        else ⟨false, some (Spatial_reference_system.Geographic r.srs), []⟩

/-- An axis-direction pair is never half-set: either both directions are
unspecified or both are specified. -/
def axes_pair_ok (a : Axis_direction × Axis_direction) : Prop :=
  (a.1 = Axis_direction.UNSPECIFIED ∧ a.2 = Axis_direction.UNSPECIFIED) ∨
  (a.1 ≠ Axis_direction.UNSPECIFIED ∧ a.2 ≠ Axis_direction.UNSPECIFIED)

/-- All seven datum-shift values of the object are set. -/
def Towgs84_vals.all_set (t : Towgs84_vals) : Prop :=
  t.dx ≠ none ∧ t.dy ≠ none ∧ t.dz ≠ none ∧ t.ex ≠ none ∧ t.ey ≠ none ∧
  t.ez ≠ none ∧ t.ppm ≠ none

/-- All seven datum-shift values of the object are the NaN sentinel. -/
def Towgs84_vals.all_unset (t : Towgs84_vals) : Prop :=
  t.dx = none ∧ t.dy = none ∧ t.dz = none ∧ t.ex = none ∧ t.ey = none ∧
  t.ez = none ∧ t.ppm = none

/-- The grammar's guarantees on a geographic-CS node, as documented by the
`DBUG_ASSERT`s of `Geographic_srs::init`: the mandatory numbers are
present (not NaN), and the datum-shift and axis clauses are fully set
whenever marked valid. -/
def Geographic_cs.wf (g : Geographic_cs) : Prop :=
  g.datum.spheroid.semi_major_axis ≠ none ∧
  g.datum.spheroid.inverse_flattening ≠ none ∧
  g.prime_meridian.longitude ≠ none ∧
  g.angular_unit.conversion_factor ≠ none ∧
  (g.datum.towgs84.valid = true →
    g.datum.towgs84.dx ≠ none ∧ g.datum.towgs84.dy ≠ none ∧
    g.datum.towgs84.dz ≠ none ∧ g.datum.towgs84.ex ≠ none ∧
    g.datum.towgs84.ey ≠ none ∧ g.datum.towgs84.ez ≠ none ∧
    g.datum.towgs84.ppm ≠ none) ∧
  (g.axes.valid = true →
    g.axes.x_direction ≠ Axis_direction.UNSPECIFIED ∧
    g.axes.y_direction ≠ Axis_direction.UNSPECIFIED)

/-- The grammar's guarantees on a projected-CS node. -/
def Projected_cs.wf (p : Projected_cs) : Prop :=
  p.geographic_cs.wf ∧
  p.linear_unit.conversion_factor ≠ none ∧
  (p.axes.valid = true →
    p.axes.x_direction ≠ Axis_direction.UNSPECIFIED ∧
    p.axes.y_direction ≠ Axis_direction.UNSPECIFIED)

/-- The grammar's guarantees on its tagged output. -/
def Coordinate_system.wf : Coordinate_system → Prop
  | Coordinate_system.Geographic g => g.wf
  | Coordinate_system.Projected p => p.wf

/-- The spec's invariant on a successfully returned geographic SRS:
no NaN sentinel in a mandatory field, the axis pair not half-set, the
datum-shift values not half-set. -/
def Geographic_srs.invariant (s : Geographic_srs) : Prop :=
  s.m_semi_major_axis ≠ none ∧ s.m_inverse_flattening ≠ none ∧
  s.m_prime_meridian ≠ none ∧ s.m_angular_unit ≠ none ∧
  axes_pair_ok s.m_axes ∧
  (s.m_towgs84.all_set ∨ s.m_towgs84.all_unset)

/-- The spec's invariant on any successfully returned SRS object: the
geographic invariant, and for projected objects also a set linear unit,
a never-half-set axis pair, and no NaN slot in the kind-specific
parameter record. -/
def Spatial_reference_system.invariant : Spatial_reference_system → Prop
  | Spatial_reference_system.Geographic s => s.invariant
  | Spatial_reference_system.Projected _ base slots =>
      base.m_geographic_srs.invariant ∧
      base.m_linear_unit ≠ none ∧
      axes_pair_ok base.m_axes ∧
      ∀ d ∈ slots, d.2 ≠ none

/-- A concrete well-formed geographic-CS node used in several runs. -/
def geoCsA : Geographic_cs :=
  { datum :=
      { spheroid := { semi_major_axis := some 6378137,
                      inverse_flattening := some 298 },
        towgs84 := { valid := true, dx := some 1, dy := some 2, dz := some 3,
                     ex := some 0, ey := some 0, ez := some 0, ppm := some 0 } },
    prime_meridian := { longitude := some 0 },
    angular_unit := { conversion_factor := some 1 },
    axes := { valid := true, x_direction := Axis_direction.NORTH,
              y_direction := Axis_direction.EAST } }

/-- The rational number 0.9996 in normalized form (numerator 2499,
denominator 2500), so that kernel evaluation of slot values never has to
normalize a fraction. -/
def scale09996 : ℚ := ⟨2499, 2500, by norm_num, by norm_num⟩

/-- A concrete projected-CS node: authority EPSG:9807 (transverse
Mercator) with the five parameters supplied by name. -/
def projCsTM : Projected_cs :=
  { geographic_cs := geoCsA,
    projection := { authority := { name := "EPSG", code := "9807" } },
    parameters :=
      [⟨"latitude_of_origin", ⟨"", ""⟩, 0⟩,
       ⟨"central_meridian", ⟨"", ""⟩, 9⟩,
       ⟨"scale_factor", ⟨"", ""⟩, scale09996⟩,
       ⟨"false_easting", ⟨"", ""⟩, 500000⟩,
       ⟨"false_northing", ⟨"", ""⟩, 0⟩],
    linear_unit := { conversion_factor := some 1 },
    axes := { valid := false, x_direction := Axis_direction.UNSPECIFIED,
              y_direction := Axis_direction.UNSPECIFIED } }

/-- The geographic SRS object built from `geoCsA`. -/
def geoSrsA : Geographic_srs :=
  { m_semi_major_axis := some 6378137,
    m_inverse_flattening := some 298,
    m_towgs84 := ⟨some 1, some 2, some 3, some 0, some 0, some 0, some 0⟩,
    m_prime_meridian := some 0,
    m_angular_unit := some 1,
    m_axes := (Axis_direction.NORTH, Axis_direction.EAST) }


/-- The value a descriptor slot with code `code` and initial value `seed`
holds after the whole parameter scan: each matching parameter overwrites
it in list order. -/
def last_value (ps : List Parameter) (code : ℤ) (seed : RVal) : RVal :=
  ps.foldl (fun acc p => if (param_match p code).isSome then some p.value else acc)
    seed

/-- A parameter carrying an EPSG authority tag whose code does not match
the descriptor, but whose name equals the descriptor's canonical name. -/
def pX : Parameter := ⟨"scale_factor", ⟨"EPSG", "9999"⟩, 42⟩

/-- A parameter list supplying descriptor 8805 twice: first by canonical
name, then by EPSG authority code, with different values. -/
def dupParams : List Parameter :=
  [⟨"scale_factor", ⟨"", ""⟩, 1⟩, ⟨"unrelated", ⟨"EPSG", "8805"⟩, 2⟩]

/-- The documented catalogue: each EPSG coordinate-operation-method code
with its projection kind, exactly the non-default cases of the
`new_projection` switch other than 0. -/
def catalogued_pairs : List (ℤ × Projection_kind) :=
  [(1024, .Popular_visualisation_pseudo_mercator),
   (1027, .Lambert_azimuthal_equal_area_spherical),
   (1028, .Equidistant_cylindrical),
   (1029, .Equidistant_cylindrical_spherical),
   (1041, .Krovak_north_orientated),
   (1042, .Krovak_modified),
   (1043, .Krovak_modified_north_orientated),
   (1051, .Lambert_conic_conformal_2sp_michigan),
   (1052, .Colombia_urban),
   (9801, .Lambert_conic_conformal_1sp),
   (9802, .Lambert_conic_conformal_2sp),
   (9803, .Lambert_conic_conformal_2sp_belgium),
   (9804, .Mercator_variant_a),
   (9805, .Mercator_variant_b),
   (9806, .Cassini_soldner),
   (9807, .Transverse_mercator),
   (9808, .Transverse_mercator_south_orientated),
   (9809, .Oblique_stereographic),
   (9810, .Polar_stereographic_variant_a),
   (9811, .New_zealand_map_grid),
   (9812, .Hotine_oblique_mercator_variant_a),
   (9813, .Laborde_oblique_mercator),
   (9815, .Hotine_oblique_mercator_variant_b),
   (9816, .Tunisia_mining_grid),
   (9817, .Lambert_conic_near_conformal),
   (9818, .American_polyconic),
   (9819, .Krovak),
   (9820, .Lambert_azimuthal_equal_area),
   (9822, .Albers_equal_area),
   (9824, .Transverse_mercator_zoned_grid_system),
   (9826, .Lambert_conic_conformal_west_orientated),
   (9828, .Bonne_south_orientated),
   (9829, .Polar_stereographic_variant_b),
   (9830, .Polar_stereographic_variant_c),
   (9831, .Guam_projection),
   (9832, .Modified_azimuthal_equidistant),
   (9833, .Hyperbolic_cassini_soldner),
   (9834, .Lambert_cylindrical_equal_area_spherical),
   (9835, .Lambert_cylindrical_equal_area)]

/-- A projected-CS tree identical to `projCsTM` except that the
projection authority is "ESRI", not "EPSG". -/
def projCsEsri : Projected_cs :=
  { projCsTM with projection := { authority := { name := "ESRI", code := "9807" } } }

/-- A projected-CS tree with projection authority EPSG:9807 and the five
transverse-Mercator parameters supplied by name
(latitude_of_origin = 0, central_meridian = 9, scale_factor = 0.9996,
false_easting = 500000, false_northing = 0), over an arbitrary nested
geographic CS, linear unit, and axis clause. -/
def tmTree (g : Geographic_cs) (lu : Unit_clause) (ax : Axes_clause) :
    Projected_cs :=
  { geographic_cs := g,
    projection := { authority := { name := "EPSG", code := "9807" } },
    parameters :=
      [⟨"latitude_of_origin", ⟨"", ""⟩, 0⟩,
       ⟨"central_meridian", ⟨"", ""⟩, 9⟩,
       ⟨"scale_factor", ⟨"", ""⟩, scale09996⟩,
       ⟨"false_easting", ⟨"", ""⟩, 500000⟩,
       ⟨"false_northing", ⟨"", ""⟩, 0⟩],
    linear_unit := lu,
    axes := ax }

/-- Every EPSG parameter code appearing in some variant's descriptor
list. -/
def all_variant_codes : List ℤ :=
  [1026, 1027, 1028, 1029, 1030, 1031, 1032, 1033, 1034, 1035, 1036, 1038,
   1039, 8617, 8618, 8801, 8802, 8805, 8806, 8807, 8811, 8812, 8813, 8814,
   8815, 8816, 8817, 8818, 8819, 8821, 8822, 8823, 8824, 8826, 8827, 8830,
   8831, 8832, 8833]

theorem scan_params_cons (p : Parameter) (ps : List Parameter)
    (ds : List (ℤ × RVal)) :
    scan_params (p :: ps) ds = scan_params ps (apply_param p ds) := rfl

theorem last_value_cons (p : Parameter) (ps : List Parameter) (code : ℤ)
    (seed : RVal) :
    last_value (p :: ps) code seed =
      last_value ps code
        (if (param_match p code).isSome then some p.value else seed) := rfl

theorem apply_param_getElem (p : Parameter) (ds : List (ℤ × RVal)) (j : ℕ) :
    (apply_param p ds)[j]? =
      (ds[j]?).map
        (fun d => if (param_match p d.1).isSome then (d.1, some p.value) else d) := by
  simp [apply_param]

theorem scan_params_getElem (ps : List Parameter) :
    ∀ (ds : List (ℤ × RVal)) (j : ℕ),
      (scan_params ps ds)[j]? =
        (ds[j]?).map (fun d => (d.1, last_value ps d.1 d.2)) := by
  induction ps with
  | nil =>
    intro ds j
    simp [scan_params, last_value]
  | cons p ps ih =>
    intro ds j
    rw [scan_params_cons, ih, apply_param_getElem, Option.map_map]
    cases hd : ds[j]? with
    | none => rfl
    | some d =>
      by_cases hm : (param_match p d.1).isSome <;>
        simp [hm, last_value_cons, Function.comp]

theorem scan_params_length (ps : List Parameter) :
    ∀ ds : List (ℤ × RVal), (scan_params ps ds).length = ds.length := by
  induction ps with
  | nil => intro ds; rfl
  | cons p ps ih =>
    intro ds
    rw [scan_params_cons, ih, apply_param, List.length_map]

theorem cons_getLast_ne_none {α : Type} : ∀ (a : α) (l : List α),
    (a :: l).getLast? ≠ none := by
  intro a l
  induction l generalizing a with
  | nil => simp
  | cons b t ih => rw [List.getLast?_cons_cons]; exact ih b

theorem last_value_eq_getLast (ps : List Parameter) (code : ℤ) :
    ∀ seed : RVal,
      last_value ps code seed =
        match (ps.filter fun p => (param_match p code).isSome).getLast? with
        | some p => some p.value
        | none => seed := by
  induction ps with
  | nil => intro seed; rfl
  | cons p ps ih =>
    intro seed
    rw [last_value_cons, ih]
    by_cases hm : (param_match p code).isSome
    · simp only [List.filter_cons, hm, if_pos]
      cases hf : (ps.filter fun q => (param_match q code).isSome) with
      | nil => simp
      | cons q t =>
        simp only [List.getLast?_cons_cons]
        cases hg : (q :: t).getLast? with
        | none => exact absurd hg (cons_getLast_ne_none q t)
        | some r => rfl
    · simp [List.filter_cons, hm]

theorem last_value_ne_none_of_seed (ps : List Parameter) (code : ℤ) :
    ∀ seed : RVal, seed ≠ none → last_value ps code seed ≠ none := by
  induction ps with
  | nil => intro seed h; exact h
  | cons p ps ih =>
    intro seed h
    rw [last_value_cons]
    by_cases hm : (param_match p code).isSome
    · exact ih _ (by simp [hm])
    · exact ih _ (by simpa [hm] using h)

theorem last_value_ne_none_of_match (ps : List Parameter) (code : ℤ)
    (seed : RVal) (h : ∃ p ∈ ps, (param_match p code).isSome) :
    last_value ps code seed ≠ none := by
  induction ps generalizing seed with
  | nil => simp at h
  | cons p ps ih =>
    rw [last_value_cons]
    by_cases hm : (param_match p code).isSome
    · exact last_value_ne_none_of_seed ps code _ (by simp [hm])
    · rcases h with ⟨q, hq, hqm⟩
      rcases List.mem_cons.mp hq with rfl | hq2
      · exact absurd hqm hm
      · exact ih _ ⟨q, hq2, hqm⟩

theorem set_parameters_slots (srid : ℤ) (ps : List Parameter)
    (ds : List (ℤ × RVal)) :
    (set_parameters srid ps ds).slots = scan_params ps ds := by
  simp only [set_parameters]
  cases hf : (scan_params ps ds).find? (fun d => d.2.isNone) <;> simp [hf]

theorem set_parameters_fail_iff (srid : ℤ) (ps : List Parameter)
    (ds : List (ℤ × RVal)) :
    (set_parameters srid ps ds).fail = true ↔
      ∃ d ∈ scan_params ps ds, d.2 = none := by
  simp only [set_parameters]
  cases hf : (scan_params ps ds).find? (fun d => d.2.isNone) with
  | none =>
    simp only [hf]
    constructor
    · intro h; exact absurd h (by simp)
    · rintro ⟨d, hd, hnone⟩
      have := List.find?_eq_none.mp hf d hd
      simp [hnone] at this
  | some d =>
    simp only [hf]
    constructor
    · intro _
      refine ⟨d, List.mem_of_find?_eq_some hf, ?_⟩
      have := List.find?_some hf
      simpa using this
    · intro _; trivial

theorem set_parameters_eq_of_found (srid : ℤ) (ps : List Parameter)
    (ds : List (ℤ × RVal)) (d : ℤ × RVal)
    (hf : (scan_params ps ds).find? (fun x => x.2.isNone) = some d) :
    set_parameters srid ps ds =
      ⟨true, [SrsError.proj_parameter_missing srid (param_names d.1) d.1],
       scan_params ps ds⟩ := by
  simp only [set_parameters]
  rw [hf]

theorem set_parameters_eq_of_none (srid : ℤ) (ps : List Parameter)
    (ds : List (ℤ × RVal))
    (hf : (scan_params ps ds).find? (fun x => x.2.isNone) = none) :
    set_parameters srid ps ds = ⟨false, [], scan_params ps ds⟩ := by
  simp only [set_parameters]
  rw [hf]

theorem find_first {α : Type} (p : α → Bool) :
    ∀ (l : List α) (a : α), l.find? p = some a →
      ∃ j : ℕ, l[j]? = some a ∧ p a = true ∧
        ∀ k, k < j → ∀ b, l[k]? = some b → p b = false := by
  intro l
  induction l with
  | nil => intro a h; simp at h
  | cons x xs ih =>
    intro a h
    by_cases hp : p x
    · rw [List.find?_cons_of_pos _ hp] at h
      injection h with h
      subst h
      exact ⟨0, by simp, hp, fun k hk => absurd hk (Nat.not_lt_zero k)⟩
    · rw [List.find?_cons_of_neg _ (by simpa using hp)] at h
      obtain ⟨j, hj, hpa, hmin⟩ := ih a h
      refine ⟨j + 1, by simpa using hj, hpa, ?_⟩
      intro k hk b hb
      cases k with
      | zero =>
        simp only [List.getElem?_cons_zero] at hb
        injection hb with hb
        subst hb
        simpa using hp
      | succ k2 =>
        simp only [List.getElem?_cons_succ] at hb
        exact hmin k2 (Nat.lt_of_succ_lt_succ hk) b hb


/-- Counterexample to claim C1 as stated: descriptor 8805
(`scale_factor`) is scanned against a parameter whose authority name is
"EPSG", whose authority code "9999" does not match, and whose name
equals the canonical name `scale_factor`; the claim says the value is
still assigned, but the extractor leaves the slot at the NaN sentinel
and fails. -/
theorem srs_C1_counterexample :
    eq_ic "EPSG" pX.authority.name = true ∧
    eq_ic (toString (8805 : ℤ)) pX.authority.code = false ∧
    eq_ic (param_names 8805) pX.name = true ∧
    (set_parameters 0 [pX] [(8805, none)]).slots = [(8805, none)] ∧
    (set_parameters 0 [pX] [(8805, none)]).fail = true := by
  decide

/-- C1 (amended): for every parsed parameter `p` and descriptor code, the
matching chain of `set_parameters` behaves as follows.  When `p`'s
authority name is case-insensitively "EPSG", only the authority-code test
is attempted: the slot is assigned exactly when the code matches, and a
name or alias equality is never consulted — a parameter whose authority
name is "EPSG" but whose code does not match is NOT assigned even when
its name matches the canonical name or an alias.  Only when the authority
name is not "EPSG" is the name tested against the canonical name and
then, failing that, against the alias. -/
theorem srs_C1_param_match_priority (p : Parameter) (code : ℤ) :
    (eq_ic "EPSG" p.authority.name = true →
      eq_ic (toString code) p.authority.code = true →
      param_match p code = some Branch.byCode) ∧
    (eq_ic "EPSG" p.authority.name = true →
      eq_ic (toString code) p.authority.code = false →
      param_match p code = none) ∧
    (eq_ic "EPSG" p.authority.name = false →
      eq_ic (param_names code) p.name = true →
      param_match p code = some Branch.byName) ∧
    (eq_ic "EPSG" p.authority.name = false →
      eq_ic (param_names code) p.name = false →
      eq_ic (param_aliases code) p.name = true →
      param_match p code = some Branch.byAlias) := by
  refine ⟨?_, ?_, ?_, ?_⟩
  · intro h1 h2; simp [param_match, h1, h2]
  · intro h1 h2; simp [param_match, h1, h2]
  · intro h1 h2; simp [param_match, h1, h2]
  · intro h1 h2 h3; simp [param_match, h1, h2, h3]

/-- Witness for the amended C1 at a concrete input: the parameter `pX`
(authority "EPSG", non-matching code, canonical name) is not matched
against descriptor code 8805. -/
theorem srs_C1_witness : param_match pX 8805 = none :=
  (srs_C1_param_match_priority pX 8805).2.1 (by decide) (by decide)

/-- C2: whenever every mandatory (NaN-seeded) descriptor has at least one
matching parameter, extraction succeeds, and each slot ends up holding
the value of the last parameter in parameter-list order that matches that
descriptor (or keeps its seed when no parameter matches): later
parameters overwrite earlier assignments to the same slot, whatever the
matching branch. -/
theorem srs_C2_last_match_wins (srid : ℤ) (tree_params : List Parameter)
    (ds : List (ℤ × RVal))
    (hmand : ∀ d ∈ ds, d.2 = none →
      ∃ p ∈ tree_params, (param_match p d.1).isSome) :
    (set_parameters srid tree_params ds).fail = false ∧
    ∀ (j : ℕ) (d : ℤ × RVal), ds[j]? = some d →
      (set_parameters srid tree_params ds).slots[j]? =
        some (d.1,
          match (tree_params.filter
              fun p => (param_match p d.1).isSome).getLast? with
          | some p => some p.value
          | none => d.2) := by
  constructor
  · by_contra hfail
    rw [Bool.not_eq_false] at hfail
    obtain ⟨d, hd, hnone⟩ := (set_parameters_fail_iff srid tree_params ds).mp hfail
    obtain ⟨j, hj⟩ := List.mem_iff_getElem?.mp hd
    rw [scan_params_getElem] at hj
    cases hd0 : ds[j]? with
    | none => rw [hd0] at hj; simp at hj
    | some d0 =>
      rw [hd0] at hj
      simp only [Option.map_some'] at hj
      injection hj with hj
      subst hj
      by_cases hseed : d0.2 = none
      · have hex := hmand d0 (List.mem_iff_getElem?.mpr ⟨j, hd0⟩) hseed
        exact last_value_ne_none_of_match tree_params d0.1 d0.2 hex hnone
      · exact last_value_ne_none_of_seed tree_params d0.1 d0.2 hseed hnone
  · intro j d hd
    rw [set_parameters_slots, scan_params_getElem, hd]
    simp only [Option.map_some']
    rw [last_value_eq_getLast]


/-- Witness for C2 at a concrete input: the same slot is matched twice
(first via name, then via authority code); extraction succeeds and the
slot deterministically holds the later value. -/
theorem srs_C2_witness :
    (set_parameters 0 dupParams [((8805 : ℤ), (none : RVal))]).fail = false ∧
    (set_parameters 0 dupParams [((8805 : ℤ), (none : RVal))]).slots[0]? =
      some (8805, some 2) := by
  have h := srs_C2_last_match_wins 0 dupParams [((8805 : ℤ), (none : RVal))]
    (by decide)
  refine ⟨h.1, ?_⟩
  have h2 := h.2 0 (8805, none) rfl
  rw [h2]
  decide

/-- C3: `set_parameters` returns `true` exactly when some slot still
holds the NaN sentinel after the matching scan; on failure it reports
exactly one missing-mandatory-parameter diagnostic carrying the SRID, the
first such descriptor's canonical name and its EPSG code; the returned
slots are exactly the scan's output (already-assigned slots keep their
values; the post-pass mutates nothing), and on success no diagnostic is
reported — the condition is signalled only through the returned flag of
this total function. -/
theorem srs_C3_missing_mandatory_report (srid : ℤ)
    (tree_params : List Parameter) (ds : List (ℤ × RVal)) :
    ((set_parameters srid tree_params ds).fail = true ↔
      ∃ d ∈ (set_parameters srid tree_params ds).slots, d.2 = none) ∧
    (set_parameters srid tree_params ds).slots = scan_params tree_params ds ∧
    ((set_parameters srid tree_params ds).fail = true →
      ∃ (j : ℕ) (d : ℤ × RVal),
        (set_parameters srid tree_params ds).slots[j]? = some d ∧
        d.2 = none ∧
        (∀ k, k < j → ∀ e : ℤ × RVal,
          (set_parameters srid tree_params ds).slots[k]? = some e →
            e.2 ≠ none) ∧
        (set_parameters srid tree_params ds).errors =
          [SrsError.proj_parameter_missing srid (param_names d.1) d.1]) ∧
    ((set_parameters srid tree_params ds).fail = false →
      (set_parameters srid tree_params ds).errors = []) := by
  refine ⟨?_, set_parameters_slots srid tree_params ds, ?_, ?_⟩
  · rw [set_parameters_fail_iff, set_parameters_slots]
  · intro hfail
    cases hf : (scan_params tree_params ds).find? (fun x => x.2.isNone) with
    | none =>
      rw [set_parameters_eq_of_none srid tree_params ds hf] at hfail
      simp at hfail
    | some d =>
      obtain ⟨j, hj, hpa, hmin⟩ := find_first _ _ d hf
      rw [set_parameters_eq_of_found srid tree_params ds d hf]
      refine ⟨j, d, by simpa using hj, by simpa using hpa, ?_, rfl⟩
      intro k hk e he
      have := hmin k hk e (by simpa using he)
      exact Option.isSome_iff_ne_none.mp (by simpa using this)
  · intro hok
    cases hf : (scan_params tree_params ds).find? (fun x => x.2.isNone) with
    | none => rw [set_parameters_eq_of_none srid tree_params ds hf]
    | some d =>
      rw [set_parameters_eq_of_found srid tree_params ds d hf] at hok
      simp at hok

/-- Witness for C3 at a concrete input: descriptor 8806 is assigned but
8807 is not; extraction fails (the iff instantiated via the theorem), and
the reported diagnostic is (SRID 31, "false_northing", 8807). -/
theorem srs_C3_witness :
    (set_parameters 31 [⟨"false_easting", ⟨"", ""⟩, 5⟩]
        [((8806 : ℤ), (none : RVal)), ((8807 : ℤ), (none : RVal))]).fail = true ∧
    (set_parameters 31 [⟨"false_easting", ⟨"", ""⟩, 5⟩]
        [((8806 : ℤ), (none : RVal)), ((8807 : ℤ), (none : RVal))]).errors =
      [SrsError.proj_parameter_missing 31 "false_northing" 8807] := by
  have h := srs_C3_missing_mandatory_report 31 [⟨"false_easting", ⟨"", ""⟩, 5⟩]
    [((8806 : ℤ), (none : RVal)), ((8807 : ℤ), (none : RVal))]
  exact ⟨(h.1).mpr (by decide), by decide⟩


/-- C4: `new_projection` is total and never fails: code 0 maps to the
unknown projection, every catalogued code maps to its documented variant
(whose fresh descriptor record is entirely sentinel-seeded), and every
integer outside the catalogue maps to the unknown projection. -/
theorem srs_C4_new_projection_total :
    new_projection 0 = Projection_kind.Unknown_projected ∧
    (∀ pr ∈ catalogued_pairs, new_projection pr.1 = pr.2) ∧
    (∀ k : Projection_kind, ∀ d ∈ variant_descriptors k, d.2 = none) ∧
    (∀ c : ℤ, c ∉ catalogued_pairs.map Prod.fst → c ≠ 0 →
      new_projection c = Projection_kind.Unknown_projected) := by
  refine ⟨rfl, by decide, ?_, ?_⟩
  · intro k d hd
    obtain ⟨c, -, rfl⟩ := List.mem_map.mp hd
    rfl
  · intro c hc h0
    have hne : ∀ x ∈ catalogued_pairs.map Prod.fst, c ≠ x :=
      fun x hx hcx => hc (hcx ▸ hx)
    simp only [new_projection]
    rw [if_neg h0, if_neg (hne 1024 (by decide)), if_neg (hne 1027 (by decide)),
      if_neg (hne 1028 (by decide)), if_neg (hne 1029 (by decide)),
      if_neg (hne 1041 (by decide)), if_neg (hne 1042 (by decide)),
      if_neg (hne 1043 (by decide)), if_neg (hne 1051 (by decide)),
      if_neg (hne 1052 (by decide)), if_neg (hne 9801 (by decide)),
      if_neg (hne 9802 (by decide)), if_neg (hne 9803 (by decide)),
      if_neg (hne 9804 (by decide)), if_neg (hne 9805 (by decide)),
      if_neg (hne 9806 (by decide)), if_neg (hne 9807 (by decide)),
      if_neg (hne 9808 (by decide)), if_neg (hne 9809 (by decide)),
      if_neg (hne 9810 (by decide)), if_neg (hne 9811 (by decide)),
      if_neg (hne 9812 (by decide)), if_neg (hne 9813 (by decide)),
      if_neg (hne 9815 (by decide)), if_neg (hne 9816 (by decide)),
      if_neg (hne 9817 (by decide)), if_neg (hne 9818 (by decide)),
      if_neg (hne 9819 (by decide)), if_neg (hne 9820 (by decide)),
      if_neg (hne 9822 (by decide)), if_neg (hne 9824 (by decide)),
      if_neg (hne 9826 (by decide)), if_neg (hne 9828 (by decide)),
      if_neg (hne 9829 (by decide)), if_neg (hne 9830 (by decide)),
      if_neg (hne 9831 (by decide)), if_neg (hne 9832 (by decide)),
      if_neg (hne 9833 (by decide)), if_neg (hne 9834 (by decide)),
      if_neg (hne 9835 (by decide))]

/-- Witness for C4 at a concrete uncatalogued input: code 9999 yields the
unknown projection. -/
theorem srs_C4_witness :
    new_projection 9999 = Projection_kind.Unknown_projected :=
  srs_C4_new_projection_total.2.2.2 9999 (by decide) (by decide)

/-- C5: whenever `parse_wkt` reports failure, the caller's output slot is
empty — no partially built object is observable; in particular a null or
empty span fails immediately, reporting exactly one parse error tagged
with the SRID, with no object produced. -/
theorem srs_C5_failure_no_object (srid : ℤ) (input : Option (List Char))
    (grammar : Option Coordinate_system) :
    ((parse_wkt srid input grammar).fail = true →
      (parse_wkt srid input grammar).result = none) ∧
    (input = none ∨ input = some [] →
      parse_wkt srid input grammar =
        ⟨true, none, [SrsError.parse_error srid]⟩) := by
  constructor
  · intro hfail
    match input with
    | none => rfl
    | some [] => rfl
    | some (c :: l) =>
      match grammar with
      | none => rfl
      | some (Coordinate_system.Projected p) =>
        simp only [parse_wkt] at hfail ⊢
        by_cases hf : (create_projected_srs srid p).fail
        · simp [hf]
        · simp [hf] at hfail
      | some (Coordinate_system.Geographic g) =>
        simp only [parse_wkt] at hfail ⊢
        by_cases hf : (create_geographic_srs srid g).fail
        · simp [hf]
        · simp [hf] at hfail
  · rintro (rfl | rfl) <;> rfl

/-- Witness for C5 at a concrete input: a null span with SRID 17 fails
with a parse error and an empty output slot. -/
theorem srs_C5_witness :
    parse_wkt 17 none none =
      ⟨true, none, [SrsError.parse_error 17]⟩ :=
  (srs_C5_failure_no_object 17 none none).2 (Or.inl rfl)

theorem scan_params_nil (ps : List Parameter) : scan_params ps [] = [] := by
  induction ps with
  | nil => rfl
  | cons p ps ih => rw [scan_params_cons]; exact ih

theorem set_parameters_empty (srid : ℤ) (ps : List Parameter) :
    set_parameters srid ps [] = ⟨false, [], []⟩ := by
  have h := set_parameters_eq_of_none srid ps []
    (by rw [scan_params_nil]; rfl)
  rw [scan_params_nil] at h
  exact h

theorem Projected_srs_init_base (srid : ℤ) (p : Projected_cs) :
    (Projected_srs.init srid p).base =
      { m_geographic_srs := (Geographic_srs.init srid p.geographic_cs).srs,
        m_linear_unit := p.linear_unit.conversion_factor,
        m_axes :=
          if p.axes.valid then (p.axes.x_direction, p.axes.y_direction)
          else (Axis_direction.UNSPECIFIED, Axis_direction.UNSPECIFIED) } := by
  by_cases ha : p.axes.valid <;> simp [Projected_srs.init, ha]

/-- C6: whenever a projected-CS tree's projection authority name is not
case-insensitively "EPSG", or its authority code does not parse as an
integer, construction silently uses method code 0 and builds the unknown
projected SRS with no error reported and no failure from the extraction
step, while the base fields (nested geographic SRS, linear unit, axis
pair) are still populated from the tree. -/
theorem srs_C6_unrecognized_authority (srid : ℤ) (proj : Projected_cs)
    (h : eq_ic "EPSG" proj.projection.authority.name = false ∨
      stoi proj.projection.authority.code = none) :
    create_projected_srs srid proj =
      ⟨false, (Projected_srs.init srid proj).asserts,
       Spatial_reference_system.Projected Projection_kind.Unknown_projected
         (Projected_srs.init srid proj).base [],
       []⟩ ∧
    (Projected_srs.init srid proj).base.m_linear_unit =
      proj.linear_unit.conversion_factor ∧
    (Projected_srs.init srid proj).base.m_geographic_srs =
      (Geographic_srs.init srid proj.geographic_cs).srs ∧
    (proj.axes.valid = true →
      (Projected_srs.init srid proj).base.m_axes =
        (proj.axes.x_direction, proj.axes.y_direction)) := by
  have hcode :
      (if eq_ic "EPSG" proj.projection.authority.name then
        (stoi proj.projection.authority.code).getD 0 else 0) = (0 : ℤ) := by
    rcases h with h | h
    · rw [if_neg (by simp [h])]
    · by_cases hn : eq_ic "EPSG" proj.projection.authority.name
      · rw [if_pos hn, h]; rfl
      · rw [if_neg hn]
  refine ⟨?_, ?_, ?_, ?_⟩
  · simp only [create_projected_srs, Projected_variant_init]
    rw [hcode]
    have hu : new_projection 0 = Projection_kind.Unknown_projected := rfl
    rw [hu]
    have hd : variant_descriptors Projection_kind.Unknown_projected =
        ([] : List (ℤ × RVal)) := rfl
    rw [hd, set_parameters_empty]
    rfl
  · rw [Projected_srs_init_base]
  · rw [Projected_srs_init_base]
  · intro hv
    rw [Projected_srs_init_base]
    simp [hv]


/-- Witness for C6 at a concrete input: the "ESRI" authority yields the
unknown projected SRS with no failure and no error. -/
theorem srs_C6_witness :
    create_projected_srs 5 projCsEsri =
      ⟨false, (Projected_srs.init 5 projCsEsri).asserts,
       Spatial_reference_system.Projected Projection_kind.Unknown_projected
         (Projected_srs.init 5 projCsEsri).base [],
       []⟩ :=
  (srs_C6_unrecognized_authority 5 projCsEsri (Or.inl (by decide))).1

theorem Geographic_srs_init_srs (srid : ℤ) (g : Geographic_cs) :
    (Geographic_srs.init srid g).srs =
      { m_semi_major_axis := g.datum.spheroid.semi_major_axis,
        m_inverse_flattening := g.datum.spheroid.inverse_flattening,
        m_towgs84 :=
          if g.datum.towgs84.valid then
            ⟨g.datum.towgs84.dx, g.datum.towgs84.dy, g.datum.towgs84.dz,
             g.datum.towgs84.ex, g.datum.towgs84.ey, g.datum.towgs84.ez,
             g.datum.towgs84.ppm⟩
          else ⟨none, none, none, none, none, none, none⟩,
        m_prime_meridian := g.prime_meridian.longitude,
        m_angular_unit := g.angular_unit.conversion_factor,
        m_axes :=
          if g.axes.valid then (g.axes.x_direction, g.axes.y_direction)
          else (Axis_direction.UNSPECIFIED, Axis_direction.UNSPECIFIED) } := by
  by_cases ht : g.datum.towgs84.valid <;> by_cases ha : g.axes.valid <;>
    simp [Geographic_srs.init, ht, ha]

theorem Geographic_init_invariant (srid : ℤ) (g : Geographic_cs)
    (hwf : g.wf) : (Geographic_srs.init srid g).srs.invariant := by
  obtain ⟨h1, h2, h3, h4, h5, h6⟩ := hwf
  rw [Geographic_srs_init_srs]
  refine ⟨h1, h2, h3, h4, ?_, ?_⟩
  · by_cases ha : g.axes.valid
    · right
      rw [if_pos ha]
      exact h6 ha
    · left
      rw [if_neg ha]
      exact ⟨rfl, rfl⟩
  · by_cases ht : g.datum.towgs84.valid
    · left
      rw [if_pos ht]
      exact h5 ht
    · right
      rw [if_neg ht]
      exact ⟨rfl, rfl, rfl, rfl, rfl, rfl, rfl⟩

/-- C9: on every geographic-CS node satisfying the grammar's guarantees
(mandatory numbers present, datum-shift and axis clauses fully set when
valid), `Geographic_srs::init` returns success and every one of its
defensive `DBUG_ASSERT` conditions holds. -/
theorem srs_C9_geographic_builder_total (srid : ℤ) (g : Geographic_cs)
    (hwf : g.wf) :
    (Geographic_srs.init srid g).fail = false ∧
    (Geographic_srs.init srid g).asserts = true := by
  obtain ⟨h1, h2, h3, h4, h5, h6⟩ := hwf
  refine ⟨rfl, ?_⟩
  by_cases ht : g.datum.towgs84.valid <;> by_cases ha : g.axes.valid
  · have h5v := h5 ht
    have h6v := h6 ha
    simp [Geographic_srs.init, isnan, ht, ha, Option.isNone_iff_eq_none,
      Option.isSome_iff_ne_none, beq_iff_eq, h1, h2, h3, h4, h5v.1, h5v.2.1, h5v.2.2.1, h5v.2.2.2.1,
      h5v.2.2.2.2.1, h5v.2.2.2.2.2.1, h5v.2.2.2.2.2.2, h6v.1, h6v.2]
  · have h5v := h5 ht
    simp [Geographic_srs.init, isnan, ht, ha, Option.isNone_iff_eq_none,
      Option.isSome_iff_ne_none, beq_iff_eq, h1, h2, h3, h4, h5v.1, h5v.2.1, h5v.2.2.1, h5v.2.2.2.1,
      h5v.2.2.2.2.1, h5v.2.2.2.2.2.1, h5v.2.2.2.2.2.2]
  · have h6v := h6 ha
    simp [Geographic_srs.init, isnan, ht, ha, Option.isNone_iff_eq_none,
      Option.isSome_iff_ne_none, beq_iff_eq, h1, h2, h3, h4, h6v.1, h6v.2]
  · simp [Geographic_srs.init, isnan, ht, ha, Option.isNone_iff_eq_none,
      Option.isSome_iff_ne_none, beq_iff_eq, h1, h2, h3, h4]

theorem geoCsA_wf : geoCsA.wf := by
  unfold Geographic_cs.wf
  decide

/-- Witness for C9 at a concrete input: the well-formed node `geoCsA`
initializes successfully with all assertions holding. -/
theorem srs_C9_witness :
    (Geographic_srs.init 41 geoCsA).fail = false ∧
    (Geographic_srs.init 41 geoCsA).asserts = true :=
  srs_C9_geographic_builder_total 41 geoCsA geoCsA_wf

theorem set_parameters_success_slots (srid : ℤ) (ps : List Parameter)
    (ds : List (ℤ × RVal))
    (h : (set_parameters srid ps ds).fail = false) :
    ∀ d ∈ (set_parameters srid ps ds).slots, d.2 ≠ none := by
  cases hf : (scan_params ps ds).find? (fun x => x.2.isNone) with
  | some d =>
    rw [set_parameters_eq_of_found srid ps ds d hf] at h
    simp at h
  | none =>
    rw [set_parameters_eq_of_none srid ps ds hf]
    intro d hd
    have hnd := List.find?_eq_none.mp hf d hd
    intro hcon
    exact hnd (by rw [hcon]; rfl)

/-- C7: every SRS object successfully handed out by `parse_wkt` on a
grammar-guaranteed tree satisfies the data-model invariants: no NaN
sentinel in a mandatory field, the axis-direction pair fully set or fully
unset, the datum-shift values all set or all unset — for the geographic
object, and for the base fields and the kind-specific parameter record of
every projected variant. -/
theorem srs_C7_success_invariants (srid : ℤ) (input : Option (List Char))
    (cs : Coordinate_system) (hwf : cs.wf)
    (srs : Spatial_reference_system)
    (hres : (parse_wkt srid input (some cs)).result = some srs) :
    srs.invariant := by
  match input with
  | none => exact absurd hres (by simp [parse_wkt])
  | some [] => exact absurd hres (by simp [parse_wkt])
  | some (c :: l) =>
    match cs, hwf with
    | Coordinate_system.Geographic g, hwf =>
      have hgf : (create_geographic_srs srid g).fail = false := rfl
      simp only [parse_wkt, hgf, Bool.false_eq_true, if_false] at hres
      injection hres with hres
      subst hres
      exact Geographic_init_invariant srid g hwf
    | Coordinate_system.Projected p, hwf =>
      simp only [parse_wkt] at hres
      by_cases hf : (create_projected_srs srid p).fail = true
      · rw [if_pos hf] at hres
        exact absurd hres (by simp)
      · rw [if_neg hf] at hres
        injection hres with hres
        subst hres
        have hspfail :
            (set_parameters srid p.parameters
              (variant_descriptors (new_projection
                (if eq_ic "EPSG" p.projection.authority.name then
                  (stoi p.projection.authority.code).getD 0 else 0)))).fail
              = false := by
          rw [Bool.not_eq_true] at hf
          exact (by simpa [create_projected_srs, Projected_variant_init]
            using hf :
            (Projected_srs.init srid p).fail = false ∧ _).2
        refine ⟨?_, ?_, ?_, ?_⟩
        · show ((Projected_srs.init srid p).base).m_geographic_srs.invariant
          rw [Projected_srs_init_base]
          exact Geographic_init_invariant srid p.geographic_cs hwf.1
        · show ((Projected_srs.init srid p).base).m_linear_unit ≠ none
          rw [Projected_srs_init_base]
          exact hwf.2.1
        · show axes_pair_ok ((Projected_srs.init srid p).base).m_axes
          rw [Projected_srs_init_base]
          by_cases ha : p.axes.valid
          · right
            rw [if_pos ha]
            exact hwf.2.2 ha
          · left
            rw [if_neg ha]
            exact ⟨rfl, rfl⟩
        · exact set_parameters_success_slots srid p.parameters _ hspfail

theorem projCsTM_wf : projCsTM.wf := by
  unfold Projected_cs.wf Geographic_cs.wf
  decide

/-- Witness for C7 at a concrete input: the object built from the
well-formed projected tree `projCsTM` satisfies the invariants. -/
theorem srs_C7_witness :
    ∃ srs : Spatial_reference_system,
      (parse_wkt 4230 (some ['P'])
        (some (Coordinate_system.Projected projCsTM))).result = some srs ∧
      srs.invariant := by
  cases hres : (parse_wkt 4230 (some ['P'])
      (some (Coordinate_system.Projected projCsTM))).result with
  | none => exact absurd hres (by decide)
  | some srs =>
    exact ⟨srs, rfl, srs_C7_success_invariants 4230 (some ['P'])
      (Coordinate_system.Projected projCsTM) projCsTM_wf srs hres⟩


/-- C8: end-to-end, for every SRID, every non-empty input span, and every
projected tree with authority EPSG:9807, the five transverse-Mercator
parameters supplied by name, a valid nested geographic CS and a valid
linear unit, `parse_wkt` yields, with failure flag false and no
diagnostics, a transverse-Mercator object whose five kind-specific slots
hold exactly the supplied values and whose base is populated from the
tree. -/
theorem srs_C8_transverse_mercator_end_to_end (srid : ℤ) (c : Char)
    (l : List Char) (g : Geographic_cs) (lu : Unit_clause) (ax : Axes_clause)
    (hg : g.wf) (hlu : lu.conversion_factor ≠ none) :
    parse_wkt srid (some (c :: l))
        (some (Coordinate_system.Projected (tmTree g lu ax))) =
      ⟨false,
       some (Spatial_reference_system.Projected
         Projection_kind.Transverse_mercator
         (Projected_srs.init srid (tmTree g lu ax)).base
         [(8801, some 0), (8802, some 9), (8805, some (0.9996 : ℚ)),
          (8806, some 500000), (8807, some 0)]),
       []⟩ := by
  have hq : (0.9996 : ℚ) = scale09996 := by
    rw [scale09996, Rat.mk'_eq_divInt, Rat.divInt_eq_div]
    norm_num
  rw [hq]
  have hf : (scan_params
      [⟨"latitude_of_origin", ⟨"", ""⟩, 0⟩,
       ⟨"central_meridian", ⟨"", ""⟩, 9⟩,
       ⟨"scale_factor", ⟨"", ""⟩, scale09996⟩,
       ⟨"false_easting", ⟨"", ""⟩, 500000⟩,
       ⟨"false_northing", ⟨"", ""⟩, 0⟩]
      (variant_descriptors Projection_kind.Transverse_mercator)).find?
        (fun x => x.2.isNone) = none := by decide
  have hsp := set_parameters_eq_of_none srid
    [⟨"latitude_of_origin", ⟨"", ""⟩, 0⟩,
     ⟨"central_meridian", ⟨"", ""⟩, 9⟩,
     ⟨"scale_factor", ⟨"", ""⟩, scale09996⟩,
     ⟨"false_easting", ⟨"", ""⟩, 500000⟩,
     ⟨"false_northing", ⟨"", ""⟩, 0⟩]
    (variant_descriptors Projection_kind.Transverse_mercator) hf
  have hscan : scan_params
      [⟨"latitude_of_origin", ⟨"", ""⟩, 0⟩,
       ⟨"central_meridian", ⟨"", ""⟩, 9⟩,
       ⟨"scale_factor", ⟨"", ""⟩, scale09996⟩,
       ⟨"false_easting", ⟨"", ""⟩, 500000⟩,
       ⟨"false_northing", ⟨"", ""⟩, 0⟩]
      (variant_descriptors Projection_kind.Transverse_mercator) =
      [(8801, some 0), (8802, some 9), (8805, some scale09996),
       (8806, some 500000), (8807, some 0)] := by decide
  rw [hscan] at hsp
  have hepsg : (if eq_ic "EPSG" "EPSG" then
      (stoi "9807").getD 0 else 0) = (9807 : ℤ) := by decide
  have hnp : new_projection 9807 = Projection_kind.Transverse_mercator := by
    decide
  have hbf : ∀ (s : ℤ) (p : Projected_cs), (Projected_srs.init s p).fail = false :=
    fun _ _ => rfl
  simp only [parse_wkt, create_projected_srs, Projected_variant_init, tmTree,
    hepsg, hnp, hsp, hbf, Bool.or_false, Bool.false_eq_true, if_false]

/-- Witness for C8 at a concrete input: SRID 4230, the well-formed
geographic node `geoCsA`, linear unit 1 and an absent axis clause. -/
theorem srs_C8_witness :
    geoCsA.wf ∧
    parse_wkt 4230 (some ['P'])
        (some (Coordinate_system.Projected (tmTree geoCsA ⟨some 1⟩
          ⟨false, Axis_direction.UNSPECIFIED, Axis_direction.UNSPECIFIED⟩))) =
      ⟨false,
       some (Spatial_reference_system.Projected
         Projection_kind.Transverse_mercator
         (Projected_srs.init 4230 (tmTree geoCsA ⟨some 1⟩
           ⟨false, Axis_direction.UNSPECIFIED,
            Axis_direction.UNSPECIFIED⟩)).base
         [(8801, some 0), (8802, some 9), (8805, some (0.9996 : ℚ)),
          (8806, some 500000), (8807, some 0)]),
       []⟩ :=
  ⟨geoCsA_wf,
   srs_C8_transverse_mercator_end_to_end 4230 'P' [] geoCsA ⟨some 1⟩
     ⟨false, Axis_direction.UNSPECIFIED, Axis_direction.UNSPECIFIED⟩
     geoCsA_wf (by decide)⟩


theorem param_match_empty_alias (code : ℤ) (hc : code ∈ all_variant_codes)
    (h23 : code ≠ 8823) (h24 : code ≠ 8824) (p : Parameter)
    (hauth : eq_ic "EPSG" p.authority.name = false) (hname : p.name = "") :
    param_match p code = some Branch.byAlias := by
  simp only [param_match, hauth, Bool.false_eq_true, if_false]
  rw [hname]
  fin_cases hc <;>
    first
      | exact absurd rfl h23
      | exact absurd rfl h24
      | decide

/-- C10: the alias table has entries only for codes 8823 and 8824, and
`std::map::operator[]` yields the empty string for every other code; as a
consequence, a parsed parameter whose authority is not "EPSG" and whose
name is empty matches, via the alias branch, every catalogue descriptor
whose code is neither 8823 nor 8824, and one scan of the descriptor list
writes its value into every such slot. -/
theorem srs_C10_empty_alias_matches :
    (∀ k : Projection_kind, ∀ c ∈ variant_codes k, c ∈ all_variant_codes) ∧
    (∀ c : ℤ, c ≠ 8823 → c ≠ 8824 → param_aliases c = "") ∧
    (∀ code ∈ all_variant_codes, code ≠ 8823 → code ≠ 8824 →
      ∀ p : Parameter, eq_ic "EPSG" p.authority.name = false → p.name = "" →
        param_match p code = some Branch.byAlias) ∧
    (∀ p : Parameter, eq_ic "EPSG" p.authority.name = false → p.name = "" →
      ∀ ds : List (ℤ × RVal),
        (∀ d ∈ ds, d.1 ∈ all_variant_codes ∧ d.1 ≠ 8823 ∧ d.1 ≠ 8824) →
        apply_param p ds = ds.map fun d => (d.1, some p.value)) := by
  refine ⟨?_, ?_, ?_, ?_⟩
  · intro k
    cases k <;> decide
  · intro c h1 h2
    simp [param_aliases, h1, h2]
  · intro code hc h23 h24 p hauth hname
    exact param_match_empty_alias code hc h23 h24 p hauth hname
  · intro p hauth hname ds hds
    simp only [apply_param]
    refine List.map_congr_left ?_
    intro d hd
    have hm := param_match_empty_alias d.1 (hds d hd).1 (hds d hd).2.1
      (hds d hd).2.2 p hauth hname
    rw [hm]
    rfl

/-- Witness for C10 at a concrete input: an empty-named parameter with
authority "ESRI" matches descriptor 8806 via the alias branch, and one
scan writes its value into both listed slots. -/
theorem srs_C10_witness :
    param_match ⟨"", ⟨"ESRI", ""⟩, 7⟩ 8806 = some Branch.byAlias ∧
    apply_param ⟨"", ⟨"ESRI", ""⟩, 7⟩
        [((8806 : ℤ), (none : RVal)), ((8801 : ℤ), some 1)] =
      [(8806, some 7), (8801, some 7)] := by
  have h := srs_C10_empty_alias_matches
  refine ⟨h.2.2.1 8806 (by decide) (by decide) (by decide) _ (by decide) rfl, ?_⟩
  rw [h.2.2.2 ⟨"", ⟨"ESRI", ""⟩, 7⟩ (by decide) rfl
    [((8806 : ℤ), (none : RVal)), ((8801 : ℤ), some 1)] (by decide)]
  rfl

end Srs
